import Mathlib

/-
Verification development for the financial CRAG pipeline
(financial_crag.py).  The CRAG workflow state, the four workflow nodes
(retrieve, assess, web_search, generate), the routing rule, the assessor
response parser, the query operation and the setup operation are embedded
shallowly: external capabilities (vector store, the two language-model
calls, the Tavily web-search client, the data extractors) are passed in as
oracle functions, and everything the repository computes itself is
translated directly from the source.
-/

/-- Python-style join: sep.join(parts). -/
def joinSep (sep : String) : List String → String
  | [] => ""
  | [x] => x
  | x :: y :: xs => x ++ sep ++ joinSep sep (y :: xs)

/-- Python str.lower(), character by character. -/
def pyLower (s : String) : String := ⟨s.data.map Char.toLower⟩

/-- Python str.strip(): drop leading and trailing whitespace. -/
def pyStrip (s : String) : String :=
  ⟨((s.data.dropWhile Char.isWhitespace).reverse.dropWhile Char.isWhitespace).reverse⟩

/-- Python slicing s[:n]: the first n characters. -/
def pyTake (s : String) (n : Nat) : String := ⟨s.data.take n⟩

/-- Membership test for the Python `needle in haystack` substring check,
written as structural recursion on the haystack. -/
def listContains (needle : List Char) : List Char → Bool
  | [] => needle.isEmpty
  | c :: rest => needle.isPrefixOf (c :: rest) || listContains needle rest

/-- Python `needle in haystack` on strings. -/
def strContains (haystack needle : String) : Bool :=
  listContains needle.data haystack.data

/-- A retrievable document: page_content plus the metadata keys the source
actually sets (source and ticker). -/
structure Document where
  page_content : String
  source : String
  ticker : String
deriving DecidableEq

/-- The CRAG workflow state (class CRAGState, lines 30-37 of
financial_crag.py).  quality is kept as the string the code stores. -/
structure CRAGState where
  question : String
  ticker : String
  documents : List Document
  web_results : String
  generation : String
  quality : String
deriving DecidableEq

/-- Outcome of one Tavily client call: the content fields of the returned
results, or the exception it raised. -/
inductive TavilyOutcome where
  | ok (results : List String)
  | err (msg : String)
deriving DecidableEq

/-- The external capabilities the workflow calls: nearest-neighbor search
over the vector store, the assessor chain, the optional Tavily client, and
the generation chain. -/
structure Env where
  similarity_search : String → Nat → List Document
  assess_llm : String → String → String
  tavily_client : Option (String → Nat → TavilyOutcome)
  generate_llm : String → String → String

/-- The assessor response parser (CRAGAssessor.assess, lines 136-142):
lower-case and strip the response, return correct if it contains the
substring correct, else incorrect if it contains incorrect, else
ambiguous. -/
def parseAssess (result : String) : String :=
  let result_lower := pyStrip (pyLower result)
  if strContains result_lower "correct" then "correct"
  else if strContains result_lower "incorrect" then "incorrect"
  else "ambiguous"

/-- CRAGAssessor.assess (lines 131-142): take the first 3 documents, each
truncated to 500 characters, join with blank lines, invoke the chain, and
parse the response. -/
def CRAGAssessor.assess (llm : String → String → String) (question : String)
    (documents : List Document) : String :=
  let docs_text := joinSep "\n\n" ((documents.take 3).map (fun d => pyTake d.page_content 500))
  parseAssess (llm question docs_text)

/-- NODE 1, CRAGWorkflow.retrieve (lines 164-168): similarity search with
k = 5 into state.documents. -/
def CRAGWorkflow.retrieve (env : Env) (state : CRAGState) : CRAGState :=
  { state with documents := env.similarity_search state.question 5 }

/-- NODE 2, CRAGWorkflow.assess (lines 171-176): store the assessor
verdict into state.quality. -/
def CRAGWorkflow.assessNode (env : Env) (state : CRAGState) : CRAGState :=
  { state with quality := CRAGAssessor.assess env.assess_llm state.question state.documents }

/-- NODE 3, CRAGWorkflow.web_search (lines 179-195): if no Tavily client
is configured store the disabled placeholder; otherwise call it with the
ticker-stock-question query and at most 3 results, joining the contents
with blank lines, and on any exception store the error placeholder. -/
def CRAGWorkflow.web_search (env : Env) (state : CRAGState) : CRAGState :=
  match env.tavily_client with
  | none => { state with web_results := "[Web search disabled]" }
  | some client =>
    match client (state.ticker ++ " stock " ++ state.question) 3 with
    | TavilyOutcome.ok results => { state with web_results := joinSep "\n\n" results }
    | TavilyOutcome.err e => { state with web_results := "[Error: " ++ e ++ "]" }

/-- The context assembly inside CRAGWorkflow.generate (lines 201-208):
full documents joined with blank lines when quality is correct, otherwise
the Local and Web template over the first 2 documents truncated to 800
characters and the stored web_results. -/
def buildContext (state : CRAGState) : String :=
  if state.quality = "correct" then
    joinSep "\n\n" (state.documents.map (fun doc => doc.page_content))
  else
    let loc := joinSep "\n\n" ((state.documents.take 2).map (fun doc => pyTake doc.page_content 800))
    "Local:\n" ++ loc ++ "\n\nWeb:\n" ++ state.web_results

/-- NODE 4, CRAGWorkflow.generate (lines 198-217): build the context and
store the generation chain output. -/
def CRAGWorkflow.generate (env : Env) (state : CRAGState) : CRAGState :=
  { state with generation := env.generate_llm state.question (buildContext state) }

/-- CRAGWorkflow.route (lines 220-222): generate when quality is correct,
web_search otherwise. -/
def CRAGWorkflow.route (state : CRAGState) : String :=
  if state.quality = "correct" then "generate" else "web_search"

/-- The initial state FinancialCRAG.query passes to the compiled graph
(lines 301-308). -/
def initState (question ticker : String) : CRAGState :=
  { question := question, ticker := ticker, documents := [], web_results := "",
    generation := "", quality := "unknown" }

/-- One run of the compiled graph (FinancialCRAG.setup, lines 280-288):
entry point retrieve, edge retrieve-assess, conditional edge by route to
web_search or generate, edge web_search-generate, generate to END.  The
first component records the executed node names in order. -/
def runWorkflow (env : Env) (s0 : CRAGState) : List String × CRAGState :=
  let s1 := CRAGWorkflow.retrieve env s0
  let s2 := CRAGWorkflow.assessNode env s1
  if CRAGWorkflow.route s2 = "web_search" then
    (["retrieve", "assess", "web_search", "generate"],
      CRAGWorkflow.generate env (CRAGWorkflow.web_search env s2))
  else
    (["retrieve", "assess", "generate"], CRAGWorkflow.generate env s2)

/-- The ordered node trace of one query run. -/
def runTrace (env : Env) (question ticker : String) : List String :=
  (runWorkflow env (initState question ticker)).1

/-- The final state of one query run. -/
def finalState (env : Env) (question ticker : String) : CRAGState :=
  (runWorkflow env (initState question ticker)).2

/-- The quality level the Assess step stores for a given run. -/
def assessedQuality (env : Env) (question ticker : String) : String :=
  (CRAGWorkflow.assessNode env (CRAGWorkflow.retrieve env (initState question ticker))).quality

/-- The dictionary FinancialCRAG.query returns (lines 310-315); used_web
is the Python truthiness of web_results, i.e. non-emptiness. -/
structure QueryResult where
  question : String
  answer : String
  quality : String
  used_web : Bool
deriving DecidableEq

/-- FinancialCRAG.query (lines 293-315). -/
def FinancialCRAG.query (env : Env) (question ticker : String) : QueryResult :=
  let result := finalState env question ticker
  { question := question, answer := result.generation, quality := result.quality,
    used_web := result.web_results != "" }

/-- One news article as DataExtractor.get_news reads it: publishedAt,
title, and the description-or-content text (empty description falls back
to content truncated to 200 characters). -/
structure NewsArticle where
  publishedAt : String
  title : String
  description : String
  content : String
deriving DecidableEq

/-- The per-article format string of get_news (lines 96-99). -/
def formatArticle (a : NewsArticle) : String :=
  "[" ++ pyTake a.publishedAt 10 ++ "] " ++ a.title ++ "\n" ++
    (if a.description = "" then pyTake a.content 200 else a.description)

/-- DataExtractor.get_news (lines 79-103): the whole body is wrapped in a
bare except returning the placeholder, so a failing news fetch degrades to
the string News unavailable.; a succeeding fetch formats at most 10
articles and joins them, with a fallback for the empty list. -/
def DataExtractor.get_news (fetch : Except String (List NewsArticle)) : String :=
  match fetch with
  | Except.error _ => "News unavailable."
  | Except.ok articles =>
    let news_text := (articles.take 10).map formatArticle
    if news_text = [] then "No recent news." else joinSep "\n\n" news_text

/-- The session fields FinancialCRAG.setup assigns: self.vectorstore and
self.app (here: whether a compiled graph is present). -/
structure Session where
  vectorstore : Option (List Document)
  app : Bool
deriving DecidableEq

/-- The two documents setup builds (lines 257-260). -/
def setupDocs (stock_data news_data ticker : String) : List Document :=
  [ { page_content := stock_data, source := "yfinance", ticker := ticker },
    { page_content := news_data, source := "news", ticker := ticker } ]

/-- FinancialCRAG.setup (lines 248-291) as a state transformer on the
session: get_stock_data may raise (it is not wrapped), get_news never
raises, indexing (Chroma.from_documents) may raise; the session fields are
assigned only after both fallible calls have succeeded. -/
def FinancialCRAG.setup (stock_data : Except String String)
    (news_fetch : Except String (List NewsArticle))
    (index_docs : List Document → Except String Unit)
    (sess : Session) (ticker : String) : Session × Except String Unit :=
  match stock_data with
  | Except.error e => (sess, Except.error e)
  | Except.ok sd =>
    let nd := DataExtractor.get_news news_fetch
    let documents := setupDocs sd nd ticker
    match index_docs documents with
    | Except.error e => (sess, Except.error e)
    | Except.ok _ => ({ vectorstore := some documents, app := true }, Except.ok ())

/-- The assessor parsing policy as the specification words it, with the
substring checks stated as list infixes. -/
def specParsePolicy (response : String) : String :=
  let r := pyStrip (pyLower response)
  if "correct".data <:+: r.data then "correct"
  else if "incorrect".data <:+: r.data then "incorrect"
  else "ambiguous"

/-- The non-correct context template as the specification words it: a
Local header over the first 2 documents truncated to 800 characters, then
a Web header over the full web results. -/
def specNonCorrectContext (docs : List Document) (webResults : String) : String :=
  "Local:\n" ++ joinSep "\n\n" ((docs.take 2).map (fun d => pyTake d.page_content 800)) ++
    "\n\nWeb:\n" ++ webResults

/-- The correct-branch context as the specification words it: every
document in full, joined with blank lines, in retrieval order. -/
def specCorrectContext (docs : List Document) : String :=
  joinSep "\n\n" (docs.map (fun d => d.page_content))

/-- The substring check agrees with list infix. -/
theorem listContains_iff (n h : List Char) : listContains n h = true ↔ n <:+: h := by
  induction h with
  | nil =>
    simp [listContains, List.isEmpty_iff]
  | cons c t ih =>
    simp [listContains, List.infix_cons_iff, ih, List.isPrefixOf_iff_prefix]

/-- Any string containing the substring incorrect also contains the
substring correct. -/
theorem incorrect_contains_correct (s : String) :
    strContains s "incorrect" = true → strContains s "correct" = true := by
  intro h
  have h2 : "incorrect".data <:+: s.data := (listContains_iff _ _).mp h
  have h3 : "correct".data <:+: "incorrect".data := by decide
  exact (listContains_iff _ _).mpr (h3.trans h2)

/-- The parser only ever returns correct or ambiguous. -/
theorem parseAssess_cases (s : String) :
    parseAssess s = "correct" ∨ parseAssess s = "ambiguous" := by
  unfold parseAssess
  cases hb : strContains (pyStrip (pyLower s)) "correct" with
  | true => simp [hb]
  | false =>
    cases hbi : strContains (pyStrip (pyLower s)) "incorrect" with
    | true =>
      have := incorrect_contains_correct (pyStrip (pyLower s)) hbi
      rw [hb] at this
      cases this
    | false => simp [hb, hbi]

/-- The generate node leaves web_results unchanged. -/
theorem generate_web_results (env : Env) (s : CRAGState) :
    (CRAGWorkflow.generate env s).web_results = s.web_results := rfl

/-- The assess node leaves web_results unchanged. -/
theorem assessNode_web_results (env : Env) (s : CRAGState) :
    (CRAGWorkflow.assessNode env s).web_results = s.web_results := rfl

/-- The retrieve node leaves web_results unchanged. -/
theorem retrieve_web_results (env : Env) (s : CRAGState) :
    (CRAGWorkflow.retrieve env s).web_results = s.web_results := rfl

/-- When the stored quality is correct the run skips the web_search node. -/
theorem run_correct_case (env : Env) (q t : String)
    (h : assessedQuality env q t = "correct") :
    runWorkflow env (initState q t) =
      (["retrieve", "assess", "generate"],
        CRAGWorkflow.generate env (CRAGWorkflow.assessNode env
          (CRAGWorkflow.retrieve env (initState q t)))) := by
  unfold assessedQuality at h
  have hroute : CRAGWorkflow.route (CRAGWorkflow.assessNode env
      (CRAGWorkflow.retrieve env (initState q t))) = "generate" := by
    unfold CRAGWorkflow.route
    rw [h]
    decide
  have hcond : ¬ (CRAGWorkflow.route (CRAGWorkflow.assessNode env
      (CRAGWorkflow.retrieve env (initState q t))) = "web_search") := by
    rw [hroute]
    decide
  unfold runWorkflow
  rw [if_neg hcond]

/-- When the stored quality is not correct the run goes through the
web_search node and then generate. -/
theorem run_web_case (env : Env) (q t : String)
    (h : assessedQuality env q t ≠ "correct") :
    runWorkflow env (initState q t) =
      (["retrieve", "assess", "web_search", "generate"],
        CRAGWorkflow.generate env (CRAGWorkflow.web_search env
          (CRAGWorkflow.assessNode env (CRAGWorkflow.retrieve env (initState q t))))) := by
  unfold assessedQuality at h
  have hroute : CRAGWorkflow.route (CRAGWorkflow.assessNode env
      (CRAGWorkflow.retrieve env (initState q t))) = "web_search" := by
    unfold CRAGWorkflow.route
    rw [if_neg h]
  unfold runWorkflow
  rw [if_pos hroute]

/-- When the stored quality is correct the final web_results is the empty
string the state was initialized with. -/
theorem final_web_empty_of_correct (env : Env) (q t : String)
    (h : assessedQuality env q t = "correct") :
    (finalState env q t).web_results = "" := by
  unfold finalState
  rw [run_correct_case env q t h]
  simp [generate_web_results, assessNode_web_results, retrieve_web_results, initState]

/-- When the stored quality is not correct and no client is configured,
the final web_results is the disabled placeholder. -/
theorem final_web_of_none (env : Env) (q t : String)
    (h : assessedQuality env q t ≠ "correct") (hnone : env.tavily_client = none) :
    (finalState env q t).web_results = "[Web search disabled]" := by
  unfold finalState
  rw [run_web_case env q t h]
  simp [generate_web_results, CRAGWorkflow.web_search, hnone]

/-- When the stored quality is not correct and the configured client
raises, the final web_results is the error placeholder. -/
theorem final_web_of_err (env : Env) (q t : String)
    (client : String → Nat → TavilyOutcome) (e : String)
    (h : assessedQuality env q t ≠ "correct") (hsome : env.tavily_client = some client)
    (hcall : client (t ++ " stock " ++ q) 3 = TavilyOutcome.err e) :
    (finalState env q t).web_results = "[Error: " ++ e ++ "]" := by
  unfold finalState
  rw [run_web_case env q t h]
  simp [generate_web_results, CRAGWorkflow.web_search, hsome,
    CRAGWorkflow.assessNode, CRAGWorkflow.retrieve, initState, hcall]

/-- When the stored quality is not correct and the configured client
succeeds, the final web_results is the blank-line join of the returned
contents. -/
theorem final_web_of_ok (env : Env) (q t : String)
    (client : String → Nat → TavilyOutcome) (rs : List String)
    (h : assessedQuality env q t ≠ "correct") (hsome : env.tavily_client = some client)
    (hcall : client (t ++ " stock " ++ q) 3 = TavilyOutcome.ok rs) :
    (finalState env q t).web_results = joinSep "\n\n" rs := by
  unfold finalState
  rw [run_web_case env q t h]
  simp [generate_web_results, CRAGWorkflow.web_search, hsome,
    CRAGWorkflow.assessNode, CRAGWorkflow.retrieve, initState, hcall]

/-- The error placeholder is never the empty string. -/
theorem err_placeholder_ne_empty (e : String) : "[Error: " ++ e ++ "]" ≠ "" := by
  intro hcontra
  have hdata := congrArg String.data hcontra
  simp [String.data_append] at hdata

/-- A concrete document for instantiations. -/
def docA : Document := { page_content := "alpha fundamentals", source := "yfinance", ticker := "T" }

/-- A second concrete document. -/
def docB : Document := { page_content := "beta news digest", source := "news", ticker := "T" }

/-- A third concrete document. -/
def docC : Document := { page_content := "gamma extra", source := "news", ticker := "T" }

/-- Environment: assessor answers correct and no Tavily client. -/
def envCorrect : Env :=
  { similarity_search := fun _ _ => [docA, docB]
  , assess_llm := fun _ _ => "correct"
  , tavily_client := none
  , generate_llm := fun _ _ => "the answer" }

/-- Environment: assessor answers ambiguous and no Tavily client. -/
def envNoTavily : Env :=
  { similarity_search := fun _ _ => [docA, docB]
  , assess_llm := fun _ _ => "ambiguous"
  , tavily_client := none
  , generate_llm := fun _ _ => "the answer" }

/-- Environment: assessor answers ambiguous and a configured Tavily client
that returns an empty result list. -/
def envEmptyWeb : Env :=
  { similarity_search := fun _ _ => [docA, docB]
  , assess_llm := fun _ _ => "ambiguous"
  , tavily_client := some (fun _ _ => TavilyOutcome.ok [])
  , generate_llm := fun _ _ => "the answer" }

/-- Environment: assessor answers ambiguous and a Tavily client that
raises. -/
def envWebErr : Env :=
  { similarity_search := fun _ _ => [docA, docB]
  , assess_llm := fun _ _ => "ambiguous"
  , tavily_client := some (fun _ _ => TavilyOutcome.err "boom")
  , generate_llm := fun _ _ => "the answer" }

/-- Claim C2: whenever the Assess step stores quality level correct, the
web_search node is not executed, web_results stays the empty string it was
initialized to, and the query result reports used_web = false. -/
theorem claim_C2 (env : Env) (q t : String)
    (h : assessedQuality env q t = "correct") :
    "web_search" ∉ runTrace env q t ∧
    (finalState env q t).web_results = "" ∧
    (FinancialCRAG.query env q t).used_web = false := by
  have hr := run_correct_case env q t h
  have hweb : (finalState env q t).web_results = "" :=
    final_web_empty_of_correct env q t h
  refine ⟨?_, hweb, ?_⟩
  · unfold runTrace
    rw [hr]
    show "web_search" ∉ ["retrieve", "assess", "generate"]
    decide
  · unfold FinancialCRAG.query
    simp only [hweb]
    decide

/-- Witness for claim C2 at a concrete environment. -/
theorem claim_C2_witness :
    assessedQuality envCorrect "q" "T" = "correct" ∧
    ("web_search" ∉ runTrace envCorrect "q" "T" ∧
      (finalState envCorrect "q" "T").web_results = "" ∧
      (FinancialCRAG.query envCorrect "q" "T").used_web = false) :=
  ⟨by decide, claim_C2 envCorrect "q" "T" (by decide)⟩

/-- Claim C3: whenever the Assess step stores quality level ambiguous or
incorrect, the web_search node runs exactly once, and it completes before
the generate node runs. -/
theorem claim_C3 (env : Env) (q t : String)
    (h : assessedQuality env q t = "ambiguous" ∨ assessedQuality env q t = "incorrect") :
    runTrace env q t = ["retrieve", "assess", "web_search", "generate"] ∧
    (runTrace env q t).count "web_search" = 1 ∧
    (runTrace env q t).indexOf "web_search" < (runTrace env q t).indexOf "generate" := by
  have hne : assessedQuality env q t ≠ "correct" := by
    rcases h with h | h <;> rw [h] <;> decide
  have hr := run_web_case env q t hne
  have htrace : runTrace env q t = ["retrieve", "assess", "web_search", "generate"] := by
    unfold runTrace
    rw [hr]
  refine ⟨htrace, ?_, ?_⟩ <;> rw [htrace] <;> decide

/-- Witness for claim C3 at a concrete environment. -/
theorem claim_C3_witness :
    (assessedQuality envNoTavily "q" "T" = "ambiguous" ∨
      assessedQuality envNoTavily "q" "T" = "incorrect") ∧
    (runTrace envNoTavily "q" "T" = ["retrieve", "assess", "web_search", "generate"] ∧
      (runTrace envNoTavily "q" "T").count "web_search" = 1 ∧
      (runTrace envNoTavily "q" "T").indexOf "web_search" <
        (runTrace envNoTavily "q" "T").indexOf "generate") :=
  ⟨Or.inl (by decide), claim_C3 envNoTavily "q" "T" (Or.inl (by decide))⟩

/-- Claim C6: the assessor parser lower-cases and trims the response, then
classifies it correct if it contains the substring correct, else incorrect
if it contains incorrect, else ambiguous; the response Correct yields
correct, This is incorrect yields correct, and not sure yields
ambiguous. -/
theorem claim_C6 :
    (∀ s : String, parseAssess s = specParsePolicy s) ∧
    parseAssess "Correct" = "correct" ∧
    parseAssess "This is incorrect" = "correct" ∧
    parseAssess "not sure" = "ambiguous" := by
  refine ⟨?_, by decide, by decide, by decide⟩
  intro s
  unfold parseAssess specParsePolicy
  by_cases hc : "correct".data <:+: (pyStrip (pyLower s)).data
  · have hb : strContains (pyStrip (pyLower s)) "correct" = true :=
      (listContains_iff _ _).mpr hc
    simp [hb, hc]
  · have hb : strContains (pyStrip (pyLower s)) "correct" = false := by
      cases hx : strContains (pyStrip (pyLower s)) "correct" with
      | true => exact absurd ((listContains_iff _ _).mp hx) hc
      | false => rfl
    by_cases hi : "incorrect".data <:+: (pyStrip (pyLower s)).data
    · have hbi : strContains (pyStrip (pyLower s)) "incorrect" = true :=
        (listContains_iff _ _).mpr hi
      simp [hb, hc, hi, hbi]
    · have hbi : strContains (pyStrip (pyLower s)) "incorrect" = false := by
        cases hx : strContains (pyStrip (pyLower s)) "incorrect" with
        | true => exact absurd ((listContains_iff _ _).mp hx) hi
        | false => rfl
      simp [hb, hc, hi, hbi]

/-- Claim C10: the parser output is always correct or ambiguous, never
incorrect, and hence the stored quality after Assess is correct or
ambiguous for every environment and question. -/
theorem claim_C10 :
    (∀ s : String, parseAssess s = "correct" ∨ parseAssess s = "ambiguous") ∧
    (∀ (env : Env) (q t : String),
      assessedQuality env q t = "correct" ∨ assessedQuality env q t = "ambiguous") := by
  refine ⟨parseAssess_cases, ?_⟩
  intro env q t
  unfold assessedQuality CRAGWorkflow.assessNode CRAGAssessor.assess
  exact parseAssess_cases _

/-- Claim C4: for a non-correct quality level, the generator context is
the Local header over only the first 2 documents, each truncated to 800
characters and joined with blank lines, then the Web header over the full
web_results string; documents beyond the first 2 contribute nothing. -/
theorem claim_C4 (s : CRAGState) (h : s.quality ≠ "correct") :
    buildContext s = specNonCorrectContext s.documents s.web_results ∧
    buildContext { s with documents := s.documents.take 2 } = buildContext s := by
  constructor
  · simp [buildContext, specNonCorrectContext, h]
  · simp [buildContext, h, List.take_take]

/-- A concrete non-correct state for the claim C4 witness. -/
def stateC4 : CRAGState :=
  { question := "q", ticker := "T", documents := [docA, docB, docC],
    web_results := "web text", generation := "", quality := "ambiguous" }

/-- Witness for claim C4 at a concrete state. -/
theorem claim_C4_witness :
    stateC4.quality ≠ "correct" ∧
    (buildContext stateC4 = specNonCorrectContext stateC4.documents stateC4.web_results ∧
      buildContext { stateC4 with documents := stateC4.documents.take 2 } =
        buildContext stateC4) :=
  ⟨by decide, claim_C4 stateC4 (by decide)⟩

/-- Claim C5: for quality level correct, the generator context is the full
content of every retrieved document joined with blank lines in retrieval
order; with 5 documents it is the concatenation of all 5 full contents. -/
theorem claim_C5 (s : CRAGState) (h : s.quality = "correct") :
    buildContext s = specCorrectContext s.documents ∧
    (∀ d1 d2 d3 d4 d5 : Document, s.documents = [d1, d2, d3, d4, d5] →
      buildContext s =
        d1.page_content ++ "\n\n" ++ d2.page_content ++ "\n\n" ++ d3.page_content ++
          "\n\n" ++ d4.page_content ++ "\n\n" ++ d5.page_content) := by
  constructor
  · simp [buildContext, specCorrectContext, h]
  · intro d1 d2 d3 d4 d5 hd
    simp [buildContext, h, hd, joinSep, String.append_assoc]

/-- A concrete correct-quality state with 5 documents for the claim C5
witness. -/
def stateC5 : CRAGState :=
  { question := "q", ticker := "T"
  , documents := [docA, docB, docC,
      { page_content := "delta", source := "news", ticker := "T" },
      { page_content := "epsilon", source := "news", ticker := "T" }]
  , web_results := "", generation := "", quality := "correct" }

/-- Witness for claim C5 at a concrete state with 5 documents. -/
theorem claim_C5_witness :
    stateC5.quality = "correct" ∧
    (buildContext stateC5 = specCorrectContext stateC5.documents ∧
      (∀ d1 d2 d3 d4 d5 : Document, stateC5.documents = [d1, d2, d3, d4, d5] →
        buildContext stateC5 =
          d1.page_content ++ "\n\n" ++ d2.page_content ++ "\n\n" ++ d3.page_content ++
            "\n\n" ++ d4.page_content ++ "\n\n" ++ d5.page_content)) :=
  ⟨rfl, claim_C5 stateC5 rfl⟩

/-- Claim C7: the web_search node never fails the run: with no client it
stores the disabled placeholder and proceeds, with a raising client it
stores the error placeholder and proceeds, and with a succeeding client it
stores the joined contents; in every case it returns a state. -/
theorem claim_C7 (env : Env) (s : CRAGState) :
    (env.tavily_client = none →
      CRAGWorkflow.web_search env s = { s with web_results := "[Web search disabled]" }) ∧
    (∀ (client : String → Nat → TavilyOutcome) (e : String),
      env.tavily_client = some client →
      client (s.ticker ++ " stock " ++ s.question) 3 = TavilyOutcome.err e →
      CRAGWorkflow.web_search env s = { s with web_results := "[Error: " ++ e ++ "]" }) ∧
    (∀ (client : String → Nat → TavilyOutcome) (rs : List String),
      env.tavily_client = some client →
      client (s.ticker ++ " stock " ++ s.question) 3 = TavilyOutcome.ok rs →
      CRAGWorkflow.web_search env s = { s with web_results := joinSep "\n\n" rs }) := by
  refine ⟨?_, ?_, ?_⟩
  · intro hnone
    unfold CRAGWorkflow.web_search
    rw [hnone]
  · intro client e hsome hcall
    simp [CRAGWorkflow.web_search, hsome, hcall]
  · intro client rs hsome hcall
    simp [CRAGWorkflow.web_search, hsome, hcall]

/-- Witness for claim C7: the disabled and the raising client cases at a
concrete state. -/
theorem claim_C7_witness :
    CRAGWorkflow.web_search envNoTavily stateC4 =
      { stateC4 with web_results := "[Web search disabled]" } ∧
    CRAGWorkflow.web_search envWebErr stateC4 =
      { stateC4 with web_results := "[Error: " ++ "boom" ++ "]" } ∧
    CRAGWorkflow.web_search envEmptyWeb stateC4 =
      { stateC4 with web_results := joinSep "\n\n" [] } :=
  ⟨(claim_C7 envNoTavily stateC4).1 rfl,
   (claim_C7 envWebErr stateC4).2.1 (fun _ _ => TavilyOutcome.err "boom") "boom" rfl rfl,
   (claim_C7 envEmptyWeb stateC4).2.2 (fun _ _ => TavilyOutcome.ok []) [] rfl rfl⟩

/-- Claim C1 counterexample: with the Tavily client unconfigured and an
ambiguous assessment, the final web_results is the non-empty disabled
placeholder, so the query result reports used_web = true, not false as
the claim states. -/
theorem claim_C1_counterexample :
    assessedQuality envNoTavily "q" "T" = "ambiguous" ∧
    envNoTavily.tavily_client = none ∧
    (finalState envNoTavily "q" "T").web_results = "[Web search disabled]" ∧
    (FinancialCRAG.query envNoTavily "q" "T").used_web = true :=
  ⟨by decide, rfl, by decide, by decide⟩

/-- Claim C1 amended: with the Tavily client unconfigured and an ambiguous
assessment the run still reaches the generate node and web_results equals
the disabled placeholder, but used_web is true, because the placeholder is
a non-empty string and used_web is the non-emptiness of web_results. -/
theorem claim_C1_amended (env : Env) (q t : String)
    (hnone : env.tavily_client = none)
    (hq : assessedQuality env q t = "ambiguous") :
    "generate" ∈ runTrace env q t ∧
    (finalState env q t).web_results = "[Web search disabled]" ∧
    (FinancialCRAG.query env q t).used_web = true := by
  have hne : assessedQuality env q t ≠ "correct" := by
    rw [hq]
    decide
  have hweb := final_web_of_none env q t hne hnone
  refine ⟨?_, hweb, ?_⟩
  · unfold runTrace
    rw [run_web_case env q t hne]
    show "generate" ∈ ["retrieve", "assess", "web_search", "generate"]
    decide
  · unfold FinancialCRAG.query
    simp only [hweb]
    decide

/-- Witness for the amended claim C1 at a concrete environment. -/
theorem claim_C1_witness :
    envNoTavily.tavily_client = none ∧
    assessedQuality envNoTavily "que" "TK" = "ambiguous" ∧
    ("generate" ∈ runTrace envNoTavily "que" "TK" ∧
      (finalState envNoTavily "que" "TK").web_results = "[Web search disabled]" ∧
      (FinancialCRAG.query envNoTavily "que" "TK").used_web = true) :=
  ⟨rfl, by decide, claim_C1_amended envNoTavily "que" "TK" rfl (by decide)⟩

/-- The failing news fetch used in the claim C8 theorems. -/
def newsFail : Except String (List NewsArticle) := Except.error "newsapi down"

/-- The empty prior session used in the claim C8 theorems. -/
def sessionEmpty : Session := { vectorstore := none, app := false }

/-- Claim C8 counterexample: a failure of the news-acquisition
collaborator does not fail setup: get_news swallows the error into the
News unavailable. placeholder and setup succeeds anyway. -/
theorem claim_C8_counterexample :
    (FinancialCRAG.setup (Except.ok "fundamentals") newsFail (fun _ => Except.ok ())
        sessionEmpty "AAPL").2 = Except.ok () ∧
    DataExtractor.get_news newsFail = "News unavailable." :=
  ⟨rfl, rfl⟩

/-- Claim C8 amended: a stock-data acquisition error or an indexing error
is fatal, setup returns the error, and the prior session is returned
untouched with nothing replaced; a failure of the news-acquisition
collaborator alone is not fatal: get_news degrades it to the literal
News unavailable. placeholder and setup proceeds to a fully replaced
session. -/
theorem claim_C8_amended (sd : Except String String)
    (nf : Except String (List NewsArticle))
    (idx : List Document → Except String Unit) (sess : Session) (t : String) :
    (∀ e, sd = Except.error e →
      FinancialCRAG.setup sd nf idx sess t = (sess, Except.error e)) ∧
    (∀ s e, sd = Except.ok s →
      idx (setupDocs s (DataExtractor.get_news nf) t) = Except.error e →
      FinancialCRAG.setup sd nf idx sess t = (sess, Except.error e)) ∧
    (∀ e, nf = Except.error e → DataExtractor.get_news nf = "News unavailable.") ∧
    (∀ s, sd = Except.ok s →
      idx (setupDocs s (DataExtractor.get_news nf) t) = Except.ok () →
      FinancialCRAG.setup sd nf idx sess t =
        ({ vectorstore := some (setupDocs s (DataExtractor.get_news nf) t), app := true },
          Except.ok ())) := by
  refine ⟨?_, ?_, ?_, ?_⟩
  · intro e he
    simp [FinancialCRAG.setup, he]
  · intro s e hs hi
    simp [FinancialCRAG.setup, hs, hi]
  · intro e he
    simp [DataExtractor.get_news, he]
  · intro s hs hi
    simp [FinancialCRAG.setup, hs, hi]

/-- Witness for the amended claim C8: a fatal stock-data error keeps the
prior session, and a news failure alone still yields a ready session. -/
theorem claim_C8_witness :
    FinancialCRAG.setup (Except.error "yfinance down") newsFail (fun _ => Except.ok ())
        sessionEmpty "AAPL" = (sessionEmpty, Except.error "yfinance down") ∧
    FinancialCRAG.setup (Except.ok "fund") newsFail (fun _ => Except.ok ())
        sessionEmpty "AAPL" =
      ({ vectorstore := some (setupDocs "fund" (DataExtractor.get_news newsFail) "AAPL"),
          app := true }, Except.ok ()) :=
  ⟨(claim_C8_amended (Except.error "yfinance down") newsFail (fun _ => Except.ok ())
      sessionEmpty "AAPL").1 "yfinance down" rfl,
   (claim_C8_amended (Except.ok "fund") newsFail (fun _ => Except.ok ())
      sessionEmpty "AAPL").2.2.2 "fund" rfl rfl⟩

/-- Claim C9 counterexample: with an ambiguous assessment and a configured
client returning an empty result list, the web-search branch runs yet the
final web_results is the empty string, so web_results being populated is
not equivalent to the branch having been selected. -/
theorem claim_C9_counterexample :
    "web_search" ∈ runTrace envEmptyWeb "q" "T" ∧
    (finalState envEmptyWeb "q" "T").web_results = "" ∧
    (FinancialCRAG.query envEmptyWeb "q" "T").used_web = false :=
  ⟨by decide, by decide, by decide⟩

/-- Claim C9 amended: web_results is non-empty only if the routing rule
selected the web-search branch; on that branch it is the non-empty
disabled placeholder when the client is unconfigured and the non-empty
error placeholder when the client raises, but it equals the blank-line
join of the returned contents when the call succeeds, which is empty for
an empty result list. -/
theorem claim_C9_amended (env : Env) (q t : String) :
    ((finalState env q t).web_results ≠ "" →
      assessedQuality env q t ≠ "correct" ∧ "web_search" ∈ runTrace env q t) ∧
    (assessedQuality env q t ≠ "correct" → env.tavily_client = none →
      (finalState env q t).web_results = "[Web search disabled]" ∧
      (finalState env q t).web_results ≠ "") ∧
    (∀ (client : String → Nat → TavilyOutcome) (e : String),
      assessedQuality env q t ≠ "correct" → env.tavily_client = some client →
      client (t ++ " stock " ++ q) 3 = TavilyOutcome.err e →
      (finalState env q t).web_results = "[Error: " ++ e ++ "]" ∧
      (finalState env q t).web_results ≠ "") ∧
    (∀ (client : String → Nat → TavilyOutcome) (rs : List String),
      assessedQuality env q t ≠ "correct" → env.tavily_client = some client →
      client (t ++ " stock " ++ q) 3 = TavilyOutcome.ok rs →
      (finalState env q t).web_results = joinSep "\n\n" rs) := by
  refine ⟨?_, ?_, ?_, ?_⟩
  · intro hne
    have hq : assessedQuality env q t ≠ "correct" :=
      fun hq => hne (final_web_empty_of_correct env q t hq)
    refine ⟨hq, ?_⟩
    unfold runTrace
    rw [run_web_case env q t hq]
    show "web_search" ∈ ["retrieve", "assess", "web_search", "generate"]
    decide
  · intro hq hnone
    have hweb := final_web_of_none env q t hq hnone
    refine ⟨hweb, ?_⟩
    rw [hweb]
    decide
  · intro client e hq hsome hcall
    have hweb := final_web_of_err env q t client e hq hsome hcall
    refine ⟨hweb, ?_⟩
    rw [hweb]
    exact err_placeholder_ne_empty e
  · intro client rs hq hsome hcall
    exact final_web_of_ok env q t client rs hq hsome hcall

/-- Witness for the amended claim C9: the raising-client case at a
concrete environment. -/
theorem claim_C9_witness :
    (finalState envWebErr "q" "T").web_results = "[Error: " ++ "boom" ++ "]" ∧
    (finalState envWebErr "q" "T").web_results ≠ "" :=
  (claim_C9_amended envWebErr "q" "T").2.2.1 (fun _ _ => TavilyOutcome.err "boom") "boom"
    (by decide) rfl rfl
